import Mathlib

/-!
Shallow embedding of the budget dashboard scripts (`ga.py`, `g.py`).

The repository loads a CSV of Indian budget rows, cleans seven financial
columns, derives `Start Year` and `Total Budget (INR Cr)`, filters by
ministry/year dropdowns, and aggregates for metrics and charts.

Modelling choices:
* a table is a `List` of row structures (pandas DataFrame, row order explicit);
* money cells are `ℚ` (exact arithmetic model of the float column);
* `pd.to_numeric(errors='coerce')` on one cell is `parseNumeric`;
* Python `int(...)` on a string is `parsePyInt`;
* the `try/except Exception` guard around `load_and_clean_data` is
  `pipelineGuard`: *every* exception raised inside the `try` block is
  converted into a graceful `st.error` report (`GuardResult.report`).
-/

namespace BudgetDash

/-- Value of a decimal digit string, most significant first. -/
def digitsToNat (cs : List Char) : Nat :=
  cs.foldl (fun n c => 10 * n + (c.toNat - 48)) 0

/-- Surrounding whitespace removed (Python `int` and `pd.to_numeric` both
ignore it). -/
def trimChars (cs : List Char) : List Char :=
  ((cs.dropWhile Char.isWhitespace).reverse.dropWhile Char.isWhitespace).reverse

/-- Unsigned decimal literal: digit run with an optional fractional part.
Models the cell shapes accepted by `pd.to_numeric` (sign handled by caller). -/
def parseUnsignedDecimal (cs : List Char) : Option ℚ :=
  let intPart := cs.takeWhile Char.isDigit
  let rest := cs.dropWhile Char.isDigit
  match rest with
  | [] => if intPart.isEmpty then none else some ((digitsToNat intPart : ℚ))
  | '.' :: fracPart =>
      if fracPart.all Char.isDigit && !(intPart.isEmpty && fracPart.isEmpty) then
        some ((digitsToNat intPart : ℚ) + (digitsToNat fracPart : ℚ) / ((10 : ℚ) ^ fracPart.length))
      else none
  | _ => none

/-- One-cell model of `pd.to_numeric(cell, errors='coerce')`:
optional surrounding whitespace, optional sign, decimal literal;
`none` is the NaN outcome for a cell that fails conversion. -/
def parseNumeric (s : String) : Option ℚ :=
  match trimChars s.toList with
  | '-' :: rest => (parseUnsignedDecimal rest).map (fun q => -q)
  | '+' :: rest => parseUnsignedDecimal rest
  | cs => parseUnsignedDecimal cs

/-- Model of Python `int(s)`: optional surrounding whitespace, optional sign,
nonempty digit run; `none` models the `ValueError`. -/
def parsePyInt (s : String) : Option Int :=
  match trimChars s.toList with
  | [] => none
  | '-' :: rest =>
      if !rest.isEmpty && rest.all Char.isDigit then some (-(digitsToNat rest : Int)) else none
  | '+' :: rest =>
      if !rest.isEmpty && rest.all Char.isDigit then some ((digitsToNat rest : Int)) else none
  | cs =>
      if cs.all Char.isDigit then some ((digitsToNat cs : Int)) else none

/-- A raw CSV row: `Ministry Name`, `Year`, and the seven financial columns
as loaded (text, possibly `-` / `NA` placeholders). -/
structure RawRow where
  ministryName : String
  year : String
  revenuePlan : String
  capitalPlan : String
  totalPlan : String
  revenueNonPlan : String
  capitalNonPlan : String
  totalNonPlan : String
  totalPlanNonPlan : String
deriving DecidableEq

/-- A cleaned row: the seven financial columns numeric, plus the two derived
columns `Start Year` and `Total Budget (INR Cr)`. -/
structure CleanRow where
  ministryName : String
  year : String
  revenuePlan : ℚ
  capitalPlan : ℚ
  totalPlan : ℚ
  revenueNonPlan : ℚ
  capitalNonPlan : ℚ
  totalNonPlan : ℚ
  totalPlanNonPlan : ℚ
  startYear : Int
  totalBudget : ℚ
deriving DecidableEq

/-- Errors that can be raised inside the `try` block of `ga.py` lines 44-54:
`read_csv` failures and the `ValueError` from `int()` on a malformed `Year`. -/
inductive PipeError where
  | fileNotFound
  | parseError (msg : String)
  | malformedYear (cell : String)
deriving DecidableEq

/-- Cleaning of one financial cell, `ga.py` lines 27-33: replace the
placeholders `-` / `NA` by NaN, coerce to numeric (failures to NaN),
then fill NaN with 0. -/
def cleanCell (s : String) : ℚ :=
  if s = "-" || s = "NA" then 0
  else
    match parseNumeric s with
    | some v => v
    | none => 0

/-- Python `x.split('-')[0]`: the text of `x` before its first `-`
(the whole of `x` when there is no `-`). -/
def beforeDash (s : String) : String :=
  String.mk (s.toList.takeWhile (fun c => c ≠ '-'))

/-- Cleaning of one row, `ga.py` lines 26-39: clean the seven financial
columns, derive `Start Year` from the text before the first `-` of `Year`
(Python `int(x.split('-')[0])`, whose `ValueError` is `malformedYear`),
and set `Total Budget (INR Cr)` to the cleaned `Total Plan & Non-Plan`. -/
def cleanRow (r : RawRow) : Except PipeError CleanRow :=
  match parsePyInt (beforeDash r.year) with
  | none => .error (.malformedYear r.year)
  | some y =>
      .ok { ministryName := r.ministryName
            year := r.year
            revenuePlan := cleanCell r.revenuePlan
            capitalPlan := cleanCell r.capitalPlan
            totalPlan := cleanCell r.totalPlan
            revenueNonPlan := cleanCell r.revenueNonPlan
            capitalNonPlan := cleanCell r.capitalNonPlan
            totalNonPlan := cleanCell r.totalNonPlan
            totalPlanNonPlan := cleanCell r.totalPlanNonPlan
            startYear := y
            totalBudget := cleanCell r.totalPlanNonPlan }

/-- `load_and_clean_data` on an already-loaded table (`ga.py` lines 15-41):
clean every row; the first malformed `Year` cell raises. -/
def load_and_clean_data : List RawRow → Except PipeError (List CleanRow)
  | [] => .ok []
  | r :: rest =>
      match cleanRow r with
      | .error e => .error e
      | .ok c =>
          match load_and_clean_data rest with
          | .error e => .error e
          | .ok cs => .ok (c :: cs)

/-- Outcome of the guarded load step: `proceed` when the `try` body succeeds,
`report` when an exception was caught by `except Exception` and shown via
`st.error` + `st.stop`, `uncaught` for an exception escaping the guard
(never produced: `except Exception` catches every exception, the
`ValueError` from `int()` included). -/
inductive GuardResult where
  | proceed (df : List CleanRow)
  | report (e : PipeError)
  | uncaught (e : PipeError)
deriving DecidableEq

/-- The `try/except Exception` block of `ga.py` lines 44-54. Its input is the
`pd.read_csv` outcome (`.error` for `FileNotFound` / parse failures); on
success the rows are cleaned, and any exception from either step is caught
and reported. -/
def pipelineGuard (loaded : Except PipeError (List RawRow)) : GuardResult :=
  match loaded with
  | .error e => .report e
  | .ok rows =>
      match load_and_clean_data rows with
      | .ok df => .proceed df
      | .error e => .report e

/-- The sidebar filters, `ga.py` lines 74-80: an equality filter on
`Ministry Name` unless the sentinel `All Ministries` is selected, then an
equality filter on `Start Year` unless `All Years` is selected
(`none` stands for the `All Years` sentinel). -/
def df_filtered (df : List CleanRow) (selectedMinistry : String)
    (selectedYear : Option Int) : List CleanRow :=
  let d1 :=
    if selectedMinistry ≠ "All Ministries" then
      df.filter (fun r => r.ministryName == selectedMinistry)
    else df
  match selectedYear with
  | some y => d1.filter (fun r => r.startYear == y)
  | none => d1

/-- `df_filtered['Total Budget (INR Cr)'].sum()` (`ga.py` line 92). -/
def total_budget (dff : List CleanRow) : ℚ := (dff.map (fun r => r.totalBudget)).sum

/-- `df_filtered['Total (Plan)'].sum()` (`ga.py` line 93). -/
def total_plan (dff : List CleanRow) : ℚ := (dff.map (fun r => r.totalPlan)).sum

/-- `df_filtered['Total (Non-Plan)'].sum()` (`ga.py` line 94). -/
def total_non_plan (dff : List CleanRow) : ℚ := (dff.map (fun r => r.totalNonPlan)).sum

/-- The key-metrics block, `ga.py` lines 90-95: shown only when the filtered
table is non-empty (`if not df_filtered.empty:`); `none` models the skipped
display. -/
def metricsDisplayed (dff : List CleanRow) : Option (ℚ × ℚ × ℚ) :=
  if dff.isEmpty then none
  else some (total_budget dff, total_plan dff, total_non_plan dff)

/-- Rows sorted ascending (pandas `groupby` sorts group keys ascending). -/
def sortIntAsc (l : List Int) : List Int :=
  List.insertionSort (fun a b => a ≤ b) l

/-- The distinct `Start Year` values of the table, ascending. -/
def trendYears (df : List CleanRow) : List Int :=
  sortIntAsc (df.map (fun r => r.startYear)).dedup

/-- `df.groupby('Start Year')['Total Budget (INR Cr)'].sum().reset_index()`
(`ga.py` line 129): one (year, sum) point per distinct `Start Year` of the
full table, ascending. -/
def df_trend (df : List CleanRow) : List (Int × ℚ) :=
  (trendYears df).map (fun y => (y, total_budget (df.filter (fun r => r.startYear == y))))

/-- Descending comparison on `Total Budget (INR Cr)` used by
`sort_values('Total Budget (INR Cr)', ascending=False)`. -/
def budgetGe (a b : CleanRow) : Prop := b.totalBudget ≤ a.totalBudget

instance : DecidableRel budgetGe := fun a b =>
  inferInstanceAs (Decidable (b.totalBudget ≤ a.totalBudget))

instance : IsTotal CleanRow budgetGe :=
  ⟨fun a b => le_total b.totalBudget a.totalBudget⟩

instance : IsTrans CleanRow budgetGe :=
  ⟨fun _ _ _ hab hbc => le_trans hbc hab⟩

/-- The filtered table sorted descending by `Total Budget (INR Cr)`. -/
def sortByBudgetDesc (l : List CleanRow) : List CleanRow :=
  List.insertionSort budgetGe l

/-- `df_filtered.sort_values('Total Budget (INR Cr)', ascending=False).head(10)`
(`ga.py` line 150). -/
def df_year_breakdown (dff : List CleanRow) : List CleanRow :=
  (sortByBudgetDesc dff).take 10

/-- One row of the melted (long-form) plan/non-plan table: `Start Year`,
the `Type` column (`Total (Plan)` or `Total (Non-Plan)`), the `Amount`. -/
structure MeltRow where
  startYear : Int
  typeName : String
  amount : ℚ
deriving DecidableEq

/-- `df_filtered[['Start Year', 'Total (Plan)', 'Total (Non-Plan)']].melt(...)`
(`ga.py` lines 166-171): pandas `melt` stacks one block per `value_var`, each
block holding one output row per *input row* in original order. -/
def df_plan_nonplan (dff : List CleanRow) : List MeltRow :=
  dff.map (fun r => { startYear := r.startYear, typeName := "Total (Plan)", amount := r.totalPlan })
    ++ dff.map (fun r =>
        { startYear := r.startYear, typeName := "Total (Non-Plan)", amount := r.totalNonPlan })

/-- Which chart the breakdown tab shows (`ga.py` lines 143-190):
year selected → top-10 bar chart; else ministry selected → melted
plan/non-plan stacked chart; else an informational message. -/
inductive BreakdownView where
  | topTen (rows : List CleanRow)
  | planVsNonPlan (rows : List MeltRow)
  | info
deriving DecidableEq

/-- Everything the dashboard body derives from the cleaned table and the two
dropdown selections on one rerun. -/
structure DashboardOutputs where
  filtered : List CleanRow
  metrics : Option (ℚ × ℚ × ℚ)
  trend : List (Int × ℚ)
  breakdown : BreakdownView
deriving DecidableEq

/-- One rerun of the dashboard body (`ga.py` sections 2-5) on the cleaned
table `df`: apply the sidebar filters, compute the metrics block, the trend
series over the FULL table `df`, and the breakdown tab's view of the
filtered table. -/
def renderDashboard (df : List CleanRow) (selectedMinistry : String)
    (selectedYear : Option Int) : DashboardOutputs :=
  let dff := df_filtered df selectedMinistry selectedYear
  { filtered := dff
    metrics := metricsDisplayed dff
    trend := df_trend df
    breakdown :=
      match selectedYear with
      | some _ => .topTen (df_year_breakdown dff)
      | none =>
          if selectedMinistry ≠ "All Ministries" then .planVsNonPlan (df_plan_nonplan dff)
          else .info }

/-- The single-filter predicate equivalent to the two sequential sidebar
filters: a row passes when every active (non-sentinel) equality holds. -/
def matchesFilters (m : String) (y : Option Int) (r : CleanRow) : Bool :=
  (m == "All Ministries" || r.ministryName == m) &&
    (match y with
     | none => true
     | some yy => r.startYear == yy)

/-- Scenario A/B raw row: `Ministry="Defence"`, `Year="2015-2016"`,
`Revenue (Plan)="-"`, `Total Plan & Non-Plan="1234.5"`. -/
def sampleRawRow : RawRow :=
  { ministryName := "Defence", year := "2015-2016", revenuePlan := "-", capitalPlan := "0",
    totalPlan := "0", revenueNonPlan := "0", capitalNonPlan := "0", totalNonPlan := "0",
    totalPlanNonPlan := "1234.5" }

/-- The cleaned form of `sampleRawRow`. -/
def sampleCleanedRow : CleanRow :=
  { ministryName := "Defence", year := "2015-2016", revenuePlan := 0, capitalPlan := 0,
    totalPlan := 0, revenueNonPlan := 0, capitalNonPlan := 0, totalNonPlan := 0,
    totalPlanNonPlan := 1234.5, startYear := 2015, totalBudget := 1234.5 }

/-- A raw row whose `Year` cell is malformed: `int("abcd")` raises. -/
def badRawRow : RawRow :=
  { ministryName := "Mystery", year := "abcd-2016", revenuePlan := "1", capitalPlan := "1",
    totalPlan := "2", revenueNonPlan := "1", capitalNonPlan := "1", totalNonPlan := "2",
    totalPlanNonPlan := "4" }

/-- Two cleaned rows of the same ministry and the same `Start Year`
(`Ministry Name` and `Year` are not unique in the data model). -/
def dupYearRowA : CleanRow :=
  { ministryName := "M", year := "2015-2016", revenuePlan := 1, capitalPlan := 0,
    totalPlan := 1, revenueNonPlan := 0, capitalNonPlan := 0, totalNonPlan := 0,
    totalPlanNonPlan := 1, startYear := 2015, totalBudget := 1 }

/-- Second duplicate-year row for the same ministry. -/
def dupYearRowB : CleanRow :=
  { ministryName := "M", year := "2015-2016", revenuePlan := 0, capitalPlan := 0,
    totalPlan := 2, revenueNonPlan := 0, capitalNonPlan := 0, totalNonPlan := 0,
    totalPlanNonPlan := 2, startYear := 2015, totalBudget := 2 }

/-- A two-row table for one ministry with a duplicated `Start Year`. -/
def dupYearDf : List CleanRow := [dupYearRowA, dupYearRowB]

/-! ## Helper lemmas -/

/-- Field-by-field characterisation of a successful `cleanRow`. -/
theorem cleanRow_ok_spec {r : RawRow} {c : CleanRow} (h : cleanRow r = .ok c) :
    c.ministryName = r.ministryName ∧ c.year = r.year ∧
    c.revenuePlan = cleanCell r.revenuePlan ∧
    c.capitalPlan = cleanCell r.capitalPlan ∧
    c.totalPlan = cleanCell r.totalPlan ∧
    c.revenueNonPlan = cleanCell r.revenueNonPlan ∧
    c.capitalNonPlan = cleanCell r.capitalNonPlan ∧
    c.totalNonPlan = cleanCell r.totalNonPlan ∧
    c.totalPlanNonPlan = cleanCell r.totalPlanNonPlan ∧
    c.totalBudget = cleanCell r.totalPlanNonPlan ∧
    parsePyInt (beforeDash r.year) = some c.startYear := by
  unfold cleanRow at h
  cases hp : parsePyInt (beforeDash r.year) with
  | none => rw [hp] at h; cases h
  | some yv =>
      rw [hp] at h
      injection h with h
      subst h
      exact ⟨rfl, rfl, rfl, rfl, rfl, rfl, rfl, rfl, rfl, rfl, rfl⟩

/-- A failing `cleanRow` always signals `malformedYear` on its own `Year` cell. -/
theorem cleanRow_error_spec {r : RawRow} {e : PipeError} (h : cleanRow r = .error e) :
    e = .malformedYear r.year := by
  unfold cleanRow at h
  cases hp : parsePyInt (beforeDash r.year) with
  | none => rw [hp] at h; injection h with h; exact h.symm
  | some yv => rw [hp] at h; cases h

/-- A successful load preserves length and the non-financial columns, and
computes every financial column cell-wise by `cleanCell`. -/
theorem load_ok_maps : ∀ {rows : List RawRow} {cs : List CleanRow},
    load_and_clean_data rows = .ok cs →
    cs.length = rows.length ∧
    cs.map (fun c => c.ministryName) = rows.map (fun r => r.ministryName) ∧
    cs.map (fun c => c.year) = rows.map (fun r => r.year) ∧
    cs.map (fun c => c.revenuePlan) = rows.map (fun r => cleanCell r.revenuePlan) ∧
    cs.map (fun c => c.capitalPlan) = rows.map (fun r => cleanCell r.capitalPlan) ∧
    cs.map (fun c => c.totalPlan) = rows.map (fun r => cleanCell r.totalPlan) ∧
    cs.map (fun c => c.revenueNonPlan) = rows.map (fun r => cleanCell r.revenueNonPlan) ∧
    cs.map (fun c => c.capitalNonPlan) = rows.map (fun r => cleanCell r.capitalNonPlan) ∧
    cs.map (fun c => c.totalNonPlan) = rows.map (fun r => cleanCell r.totalNonPlan) ∧
    cs.map (fun c => c.totalPlanNonPlan) = rows.map (fun r => cleanCell r.totalPlanNonPlan) ∧
    cs.map (fun c => c.totalBudget) = rows.map (fun r => cleanCell r.totalPlanNonPlan) := by
  intro rows
  induction rows with
  | nil =>
      intro cs h
      unfold load_and_clean_data at h
      injection h with h
      subst h
      simp
  | cons a rest ih =>
      intro cs h
      unfold load_and_clean_data at h
      cases ha : cleanRow a with
      | error e => rw [ha] at h; cases h
      | ok c =>
          rw [ha] at h
          cases hrest : load_and_clean_data rest with
          | error e => rw [hrest] at h; cases h
          | ok cs' =>
              rw [hrest] at h
              injection h with h
              subst h
              obtain ⟨h1, h2, h3, h4, h5, h6, h7, h8, h9, h10, h11⟩ := ih hrest
              obtain ⟨g1, g2, g3, g4, g5, g6, g7, g8, g9, g10, -⟩ := cleanRow_ok_spec ha
              simp [h1, h2, h3, h4, h5, h6, h7, h8, h9, h10, h11,
                g1, g2, g3, g4, g5, g6, g7, g8, g9, g10]

/-- A table containing a malformed `Year` cell never cleans successfully:
the load step raises `malformedYear`. -/
theorem load_error_of_bad : ∀ {rows : List RawRow},
    (∃ r ∈ rows, parsePyInt (beforeDash r.year) = none) →
    ∃ cell, load_and_clean_data rows = .error (.malformedYear cell) := by
  intro rows
  induction rows with
  | nil => rintro ⟨r, hr, -⟩; cases hr
  | cons a rest ih =>
      rintro ⟨r, hr, hbad⟩
      cases ha : cleanRow a with
      | error e =>
          refine ⟨a.year, ?_⟩
          have he := cleanRow_error_spec ha
          unfold load_and_clean_data
          rw [ha, he]
      | ok c =>
          rcases List.mem_cons.mp hr with rfl | hmem
          · exfalso
            unfold cleanRow at ha
            rw [hbad] at ha
            cases ha
          · obtain ⟨cell, hcell⟩ := ih ⟨r, hmem, hbad⟩
            refine ⟨cell, ?_⟩
            unfold load_and_clean_data
            rw [ha, hcell]

/-! ## Claim theorems -/

/-- C6: filtering with both selectors at their sentinel values
(`All Ministries`, `All Years`) returns the cleaned table unchanged —
same rows, same order. -/
theorem filter_all_all_identity (df : List CleanRow) :
    df_filtered df "All Ministries" none = df := by
  simp [df_filtered]

/-- C5: the filter output is exactly the sub-list of rows satisfying all
active (non-sentinel) equality predicates, in original order (it literally
is a `List.filter` of the input); membership is as expected; and when no
row matches the output is the empty table, not an error. -/
theorem filter_exact_match (df : List CleanRow) (m : String) (y : Option Int) :
    df_filtered df m y = df.filter (fun r => matchesFilters m y r) ∧
    (∀ r, r ∈ df_filtered df m y ↔ r ∈ df ∧ matchesFilters m y r = true) ∧
    ((∀ r ∈ df, matchesFilters m y r = false) → df_filtered df m y = []) := by
  have h1 : df_filtered df m y = df.filter (fun r => matchesFilters m y r) := by
    by_cases hm : m = "All Ministries"
    · subst hm
      cases y with
      | none => simp [df_filtered, matchesFilters]
      | some yy => simp [df_filtered, matchesFilters]
    · have hb : (m == "All Ministries") = false := beq_eq_false_iff_ne.mpr hm
      cases y with
      | none => simp [df_filtered, matchesFilters, hm, hb]
      | some yy =>
          simp [df_filtered, matchesFilters, hm, hb, List.filter_filter, Bool.and_comm]
  refine ⟨h1, ?_, ?_⟩
  · intro r
    rw [h1]
    simp [List.mem_filter]
  · intro hnone
    rw [h1]
    apply List.filter_eq_nil_iff.mpr
    intro a ha
    simp [hnone a ha]

/-- C5 witness: a ministry absent from the table yields the empty table. -/
theorem filter_exact_match_witness :
    df_filtered [sampleCleanedRow] "Railways" none = [] :=
  (filter_exact_match [sampleCleanedRow] "Railways" none).2.2 (by decide)

/-- C9: the metrics triple (sum of Total Budget, Total Plan, Total Non-Plan)
is displayed iff the filtered table is non-empty; on an empty filtered table
the metric display is skipped (`none`), never a crash. -/
theorem metrics_skipped_iff_empty (df : List CleanRow) (m : String) (y : Option Int) :
    ((renderDashboard df m y).metrics = none ↔ df_filtered df m y = []) ∧
    (df_filtered df m y ≠ [] →
      (renderDashboard df m y).metrics =
        some (total_budget (df_filtered df m y), total_plan (df_filtered df m y),
          total_non_plan (df_filtered df m y))) := by
  by_cases hd : df_filtered df m y = [] <;>
    simp [renderDashboard, metricsDisplayed, hd]

/-- C9 witness: on a non-empty filtered table the metrics are the three sums. -/
theorem metrics_skipped_iff_empty_witness :
    (renderDashboard [sampleCleanedRow] "All Ministries" none).metrics =
      some (total_budget [sampleCleanedRow], total_plan [sampleCleanedRow],
        total_non_plan [sampleCleanedRow]) :=
  (metrics_skipped_iff_empty [sampleCleanedRow] "All Ministries" none).2 (by simp [df_filtered])

/-- C2: after cleaning, every cell of the seven financial columns is the
`cleanCell` image of the raw cell (hence numeric and non-missing), and
`cleanCell` maps the placeholders `-` / `NA` and every cell failing numeric
conversion to zero. -/
theorem financial_columns_zero_filled {rows : List RawRow} {cs : List CleanRow}
    (h : load_and_clean_data rows = .ok cs) :
    cs.map (fun c => c.revenuePlan) = rows.map (fun r => cleanCell r.revenuePlan) ∧
    cs.map (fun c => c.capitalPlan) = rows.map (fun r => cleanCell r.capitalPlan) ∧
    cs.map (fun c => c.totalPlan) = rows.map (fun r => cleanCell r.totalPlan) ∧
    cs.map (fun c => c.revenueNonPlan) = rows.map (fun r => cleanCell r.revenueNonPlan) ∧
    cs.map (fun c => c.capitalNonPlan) = rows.map (fun r => cleanCell r.capitalNonPlan) ∧
    cs.map (fun c => c.totalNonPlan) = rows.map (fun r => cleanCell r.totalNonPlan) ∧
    cs.map (fun c => c.totalPlanNonPlan) = rows.map (fun r => cleanCell r.totalPlanNonPlan) ∧
    ∀ s, s = "-" ∨ s = "NA" ∨ parseNumeric s = none → cleanCell s = 0 := by
  obtain ⟨-, -, -, h4, h5, h6, h7, h8, h9, h10, -⟩ := load_ok_maps h
  refine ⟨h4, h5, h6, h7, h8, h9, h10, ?_⟩
  intro s hs
  rcases hs with h1 | h1 | h1
  · simp [cleanCell, h1]
  · simp [cleanCell, h1]
  · unfold cleanCell
    split
    · rfl
    · simp [h1]

/-- C2 witness: Scenario B — a row with `Revenue (Plan)="-"` cleans to
`Revenue (Plan) = 0`. -/
theorem financial_columns_zero_filled_witness :
    [sampleCleanedRow].map (fun c => c.revenuePlan) =
      [sampleRawRow].map (fun r => cleanCell r.revenuePlan) ∧
    cleanCell "-" = 0 := by
  have h := @financial_columns_zero_filled [sampleRawRow] [sampleCleanedRow]
    (by with_unfolding_all rfl)
  exact ⟨h.1, h.2.2.2.2.2.2.2 "-" (Or.inl rfl)⟩

/-- C7: a successfully cleaned row has `Start Year` equal to the integer
parse of the text before the first `-` of `Year`, and `Total Budget`
identical to the (cleaned) `Total Plan & Non-Plan` column. -/
theorem start_year_total_budget_derived (r : RawRow) (c : CleanRow)
    (h : cleanRow r = .ok c) :
    parsePyInt (beforeDash r.year) = some c.startYear ∧
    c.totalBudget = c.totalPlanNonPlan := by
  obtain ⟨-, -, -, -, -, -, -, -, h9, h10, h11⟩ := cleanRow_ok_spec h
  exact ⟨h11, h10.trans h9.symm⟩

/-- C7 witness: Scenario A — `Year="2015-2016"`,
`Total Plan & Non-Plan="1234.5"` cleans to `Start Year = 2015`,
`Total Budget = 1234.5`. -/
theorem start_year_total_budget_derived_witness :
    parsePyInt (beforeDash "2015-2016") = some sampleCleanedRow.startYear ∧
    sampleCleanedRow.totalBudget = sampleCleanedRow.totalPlanNonPlan ∧
    sampleCleanedRow.startYear = 2015 ∧ sampleCleanedRow.totalBudget = 1234.5 := by
  have h := start_year_total_budget_derived sampleRawRow sampleCleanedRow
    (by with_unfolding_all rfl)
  exact ⟨h.1, h.2, by decide, rfl⟩

/-- C10 (frame): cleaning preserves the row count, the row order and the
non-financial columns `Ministry Name` and `Year`; only the financial columns
are rewritten and only `Start Year` / `Total Budget` are appended. -/
theorem clean_frame_preserved {rows : List RawRow} {cs : List CleanRow}
    (h : load_and_clean_data rows = .ok cs) :
    cs.length = rows.length ∧
    cs.map (fun c => c.ministryName) = rows.map (fun r => r.ministryName) ∧
    cs.map (fun c => c.year) = rows.map (fun r => r.year) := by
  obtain ⟨h1, h2, h3, -⟩ := load_ok_maps h
  exact ⟨h1, h2, h3⟩

/-- C10 witness: frame preservation on the concrete one-row table. -/
theorem clean_frame_preserved_witness :
    ([sampleCleanedRow] : List CleanRow).length = ([sampleRawRow] : List RawRow).length ∧
    [sampleCleanedRow].map (fun c => c.ministryName) =
      [sampleRawRow].map (fun r => r.ministryName) ∧
    [sampleCleanedRow].map (fun c => c.year) = [sampleRawRow].map (fun r => r.year) :=
  @clean_frame_preserved [sampleRawRow] [sampleCleanedRow]
    (by with_unfolding_all rfl)

/-- C1 counterexample: on a table whose `Year` cell is malformed
(`int("abcd")` raises), the guarded pipeline *catches* the error and reports
it gracefully (`report`), exactly as for `FileNotFound` / `ParseError` —
it does not abort uncaught, contrary to the claim. -/
theorem malformed_year_caught_counterexample :
    parsePyInt (beforeDash badRawRow.year) = none ∧
    pipelineGuard (Except.ok [badRawRow]) = .report (.malformedYear "abcd-2016") := by
  constructor <;> decide

/-- C1 (amended): a malformed `Year` cell makes `load_and_clean_data` raise
`malformedYear`, and the surrounding `try/except Exception` guard catches it
and reports it gracefully — no input ever produces an uncaught abort. -/
theorem malformed_year_caught (rows : List RawRow) (r : RawRow) (hr : r ∈ rows)
    (hbad : parsePyInt (beforeDash r.year) = none) :
    (∃ cell, pipelineGuard (Except.ok rows) = .report (.malformedYear cell)) ∧
    ∀ loaded e, pipelineGuard loaded ≠ .uncaught e := by
  constructor
  · obtain ⟨cell, hcell⟩ := load_error_of_bad ⟨r, hr, hbad⟩
    exact ⟨cell, by simp [pipelineGuard, hcell]⟩
  · intro loaded e
    cases loaded with
    | error e' => simp [pipelineGuard]
    | ok rows' =>
        unfold pipelineGuard
        cases hl : load_and_clean_data rows' <;> simp [hl]

/-- C1 witness: the guard outcome on the malformed table is not an uncaught
abort. -/
theorem malformed_year_caught_witness :
    pipelineGuard (Except.ok [badRawRow]) ≠ .uncaught (.malformedYear "abcd-2016") :=
  (malformed_year_caught [badRawRow] badRawRow (by simp) (by decide)).2
    (Except.ok [badRawRow]) (.malformedYear "abcd-2016")

/-- C4: the year-scoped breakdown returns `min 10 n` rows, sorted descending
by `Total Budget`, drawn from the filtered table, and every returned row has
`Total Budget` at least that of every row left out; the render step feeds it
the year-filtered table. -/
theorem year_breakdown_top10 (dff : List CleanRow) :
    (df_year_breakdown dff).length = min 10 dff.length ∧
    (df_year_breakdown dff).Pairwise (fun a b => b.totalBudget ≤ a.totalBudget) ∧
    (∀ a ∈ df_year_breakdown dff, a ∈ dff) ∧
    (∀ a ∈ df_year_breakdown dff, ∀ b ∈ (sortByBudgetDesc dff).drop 10,
      b.totalBudget ≤ a.totalBudget) ∧
    ∀ df m yy, (renderDashboard df m (some yy)).breakdown =
      .topTen (df_year_breakdown (df_filtered df m (some yy))) := by
  have hperm := List.perm_insertionSort budgetGe dff
  have hsorted := List.sorted_insertionSort budgetGe dff
  refine ⟨?_, ?_, ?_, ?_, ?_⟩
  · simp [df_year_breakdown, sortByBudgetDesc, List.length_take, hperm.length_eq]
  · exact List.Pairwise.sublist (List.take_sublist 10 _) hsorted
  · intro a ha
    exact hperm.mem_iff.mp (List.take_subset 10 _ ha)
  · intro a ha b hb
    have hs2 := hsorted
    rw [← List.take_append_drop 10 (List.insertionSort budgetGe dff)] at hs2
    exact (List.pairwise_append.mp hs2).2.2 a ha b hb
  · intro df m yy
    rfl

/-- C4 witness: the size equation on a concrete two-row table. -/
theorem year_breakdown_top10_witness :
    (df_year_breakdown dupYearDf).length = min 10 dupYearDf.length :=
  (year_breakdown_top10 dupYearDf).1

/-- C8 (amended): for every filtered table, the ministry-scoped melt yields
one long-form row per (input row, category) — `2·n` rows in total — and when
the `Start Year` values of the filtered table are pairwise distinct this is
exactly one row per (`Start Year`, category) pair,
category ∈ {Plan, Non-Plan}. -/
theorem plan_nonplan_melt (dff : List CleanRow) :
    (df_plan_nonplan dff).length = 2 * dff.length ∧
    ((dff.map (fun r => r.startYear)).Nodup →
      ∀ y ∈ dff.map (fun r => r.startYear),
        ((df_plan_nonplan dff).countP
          (fun mr => mr.startYear == y && mr.typeName == "Total (Plan)")) = 1 ∧
        ((df_plan_nonplan dff).countP
          (fun mr => mr.startYear == y && mr.typeName == "Total (Non-Plan)")) = 1) := by
  constructor
  · simp [df_plan_nonplan]
    omega
  · intro h y hy
    have hcount : (dff.map (fun r => r.startYear)).countP (fun x => x == y) = 1 := by
      rw [← List.count_eq_countP]
      exact List.count_eq_one_of_mem h hy
    rw [List.countP_map] at hcount
    have hne1 : (("Total (Non-Plan)" : String) == "Total (Plan)") = false := by decide
    have hne2 : (("Total (Plan)" : String) == "Total (Non-Plan)") = false := by decide
    constructor
    · simp only [df_plan_nonplan, List.countP_append, List.countP_map]
      simp [hne1, Function.comp_def]
      simpa [Function.comp_def] using hcount
    · simp only [df_plan_nonplan, List.countP_append, List.countP_map]
      simp [hne2, Function.comp_def]
      simpa [Function.comp_def] using hcount

/-- C8 witness: a one-row ministry table melts to two rows, and — its single
`Start Year` being trivially distinct — exactly one of them is the
(2015, `Total (Plan)`) row. -/
theorem plan_nonplan_melt_witness :
    (df_plan_nonplan [dupYearRowA]).length = 2 * ([dupYearRowA] : List CleanRow).length ∧
    ((df_plan_nonplan [dupYearRowA]).countP
      (fun mr => mr.startYear == 2015 && mr.typeName == "Total (Plan)")) = 1 := by
  have h := plan_nonplan_melt [dupYearRowA]
  exact ⟨h.1, (h.2 (by simp) 2015 (by simp [dupYearRowA])).1⟩

/-- C8 counterexample: a ministry with two rows sharing `Start Year` 2015
(year selector `All Years`) melts to *two* rows for the pair
(2015, `Total (Plan)`) — not exactly one row per (`Start Year`, category)
pair as claimed. -/
theorem plan_nonplan_melt_counterexample :
    df_filtered dupYearDf "M" none = dupYearDf ∧
    ((df_plan_nonplan (df_filtered dupYearDf "M" none)).countP
      (fun mr => mr.startYear == 2015 && mr.typeName == "Total (Plan)")) = 2 := by
  constructor
  · with_unfolding_all rfl
  · decide

/-- Splitting a sum over a list into the part passing a predicate and the
part failing it. -/
theorem sum_map_filter_add {α : Type} (p : α → Bool) (f : α → ℚ) (l : List α) :
    ((l.filter p).map f).sum + ((l.filter (fun a => !(p a))).map f).sum = (l.map f).sum := by
  induction l with
  | nil => simp
  | cons a rest ih =>
      by_cases hp : p a
      · simp [List.filter_cons, hp]
        linarith [ih]
      · simp [List.filter_cons, hp]
        linarith [ih]

/-- Partitioning a sum by a key: when `ks` lists distinct keys covering every
element of `l`, the per-key filtered sums add up to the total sum. -/
theorem sum_over_keys {α : Type} (key : α → Int) (f : α → ℚ) :
    ∀ ks : List Int, ks.Nodup → ∀ l : List α, (∀ a ∈ l, key a ∈ ks) →
      (ks.map (fun k => ((l.filter (fun a => key a == k)).map f).sum)).sum = (l.map f).sum := by
  intro ks
  induction ks with
  | nil =>
      intro _ l hcov
      have hl : l = [] := by
        cases l with
        | nil => rfl
        | cons a rest => exact absurd (hcov a (by simp)) (by simp)
      subst hl
      simp
  | cons k ks ih =>
      intro hnd l hcov
      have hk : k ∉ ks := (List.nodup_cons.mp hnd).1
      have hnd' : ks.Nodup := (List.nodup_cons.mp hnd).2
      have hcov' : ∀ a ∈ l.filter (fun a => !(key a == k)), key a ∈ ks := by
        intro a ha
        have hmem := List.mem_filter.mp ha
        have hne : ¬ key a = k := by simpa using hmem.2
        rcases List.mem_cons.mp (hcov a hmem.1) with heq | hks
        · exact absurd heq hne
        · exact hks
      have hrec := ih hnd' (l.filter (fun a => !(key a == k))) hcov'
      have hfilters : ∀ k' ∈ ks,
          (l.filter (fun a => !(key a == k))).filter (fun a => key a == k')
            = l.filter (fun a => key a == k') := by
        intro k' hk'
        rw [List.filter_filter]
        apply List.filter_congr
        intro a _
        by_cases ha : key a = k'
        · have hkk : k' ≠ k := fun h => hk (h ▸ hk')
          simp [ha, hkk]
        · simp [ha]
      have hmap : ks.map (fun k' => ((l.filter (fun a => key a == k')).map f).sum)
          = ks.map (fun k' =>
              (((l.filter (fun a => !(key a == k))).filter (fun a => key a == k')).map f).sum) :=
        List.map_congr_left (fun k' hk' => by rw [hfilters k' hk'])
      simp only [List.map_cons, List.sum_cons]
      rw [hmap, hrec]
      exact sum_map_filter_add (fun a => key a == k) f l

/-- C3: the trend series is computed from the FULL unfiltered table for every
filter selection; it has exactly one point per distinct `Start Year`, in
strictly ascending year order; and the per-year sums add up to the total
`Total Budget` of the whole table. -/
theorem trend_full_table_partition (df : List CleanRow) (m : String) (y : Option Int) :
    (renderDashboard df m y).trend = df_trend df ∧
    ((df_trend df).map Prod.fst).Pairwise (fun a b => a < b) ∧
    (∀ yr, yr ∈ (df_trend df).map Prod.fst ↔ yr ∈ df.map (fun r => r.startYear)) ∧
    ((df_trend df).map Prod.snd).sum = total_budget df := by
  have hperm := List.perm_insertionSort (fun a b : Int => a ≤ b)
    (df.map (fun r => r.startYear)).dedup
  have hsorted := List.sorted_insertionSort (fun a b : Int => a ≤ b)
    (df.map (fun r => r.startYear)).dedup
  have hnd : (trendYears df).Nodup := by
    have h := hperm.nodup_iff.mpr (List.nodup_dedup (df.map (fun r => r.startYear)))
    simpa [trendYears, sortIntAsc] using h
  have hfst : (df_trend df).map Prod.fst = trendYears df := by
    simp [df_trend, List.map_map, Function.comp_def]
  have hmem : ∀ yr, yr ∈ trendYears df ↔ yr ∈ df.map (fun r => r.startYear) := by
    intro yr
    unfold trendYears sortIntAsc
    rw [hperm.mem_iff, List.mem_dedup]
  refine ⟨rfl, ?_, ?_, ?_⟩
  · rw [hfst]
    have hle : (trendYears df).Pairwise (fun a b : Int => a ≤ b) := hsorted
    exact (hle.and hnd).imp (fun hab => lt_of_le_of_ne hab.1 hab.2)
  · intro yr
    rw [hfst]
    exact hmem yr
  · have hsnd : (df_trend df).map Prod.snd
        = (trendYears df).map
            (fun k => ((df.filter (fun r => r.startYear == k)).map (fun r => r.totalBudget)).sum) := by
      simp [df_trend, List.map_map, Function.comp_def, total_budget]
    rw [hsnd, total_budget]
    exact sum_over_keys (fun r => r.startYear) (fun r => r.totalBudget) (trendYears df) hnd df
      (fun a ha => (hmem _).mpr (List.mem_map_of_mem _ ha))

/-- C3 witness: the trend partition identity on a concrete two-row table. -/
theorem trend_full_table_partition_witness :
    ((df_trend dupYearDf).map Prod.snd).sum = total_budget dupYearDf :=
  (trend_full_table_partition dupYearDf "M" none).2.2.2

end BudgetDash
